import Mathlib

/-!
Shallow embedding of `src/app.py` (Cloud Run logging → GitHub PR bridge).

Conventions of the embedding:
* Python dict/JSON values are modelled by the inductive `Json`;
  `json.dumps` by `dumps` (default separators `", "` / `": "`),
  Python `str()` by `pyStr`, Python truthiness by `truthy`.
* Python strings are Lean `String`s; the slice `s[:n]` is `pyTake s n`
  (first `n` code points).
* `datetime` values are epoch seconds (`Int`); `timedelta(minutes=m)` is
  `m * 60` seconds.
* Library calls that perform I/O (Cloud Logging queries, GitHub HTTP
  calls, base64 decoding of headers) are oracles passed in as functions.
-/

namespace App

/-- Python/JSON values as they appear in log-entry payloads. -/
inductive Json where
  | null
  | bool (b : Bool)
  | num (n : Int)
  | str (s : String)
  | arr (xs : List Json)
  | obj (kvs : List (String × Json))

/-- `s[:n]` on a Python string: the first `n` code points. -/
def pyTake (s : String) (n : Nat) : String :=
  String.mk (s.data.take n)

/-- JSON string escaping as performed by `json.dumps` (common cases:
quote, backslash, and the control characters used in log text). -/
def jsonEscapeChar (c : Char) : String :=
  if c = '"' then "\\\""
  else if c = '\\' then "\\\\"
  else if c = '\n' then "\\n"
  else if c = '\t' then "\\t"
  else if c = '\r' then "\\r"
  else String.singleton c

def jsonQuote (s : String) : String :=
  "\"" ++ String.join (s.data.map jsonEscapeChar) ++ "\""

mutual

/-- `json.dumps` with the default separators `", "` and `": "`. -/
def dumps : Json → String
  | .null => "null"
  | .bool true => "true"
  | .bool false => "false"
  | .num n => toString n
  | .str s => jsonQuote s
  | .arr xs => "[" ++ String.intercalate ", " (dumpsList xs) ++ "]"
  | .obj kvs => "\x7b" ++ String.intercalate ", " (dumpsObj kvs) ++ "\x7d"

def dumpsList : List Json → List String
  | [] => []
  | x :: xs => dumps x :: dumpsList xs

def dumpsObj : List (String × Json) → List String
  | [] => []
  | (k, v) :: kvs => (jsonQuote k ++ ": " ++ dumps v) :: dumpsObj kvs

end

/-- Python `repr` restricted to our JSON values (single-quoted strings;
the double-quote-preferring special case of CPython is not needed by any
input considered here). -/
def pyReprEscapeChar (c : Char) : String :=
  if c = '\\' then "\\\\"
  else if c = '\'' then "\\'"
  else if c = '\n' then "\\n"
  else String.singleton c

mutual

def pyRepr : Json → String
  | .null => "None"
  | .bool true => "True"
  | .bool false => "False"
  | .num n => toString n
  | .str s => "'" ++ String.join (s.data.map pyReprEscapeChar) ++ "'"
  | .arr xs => "[" ++ String.intercalate ", " (pyReprList xs) ++ "]"
  | .obj kvs => "\x7b" ++ String.intercalate ", " (pyReprObj kvs) ++ "\x7d"

def pyReprList : List Json → List String
  | [] => []
  | x :: xs => pyRepr x :: pyReprList xs

def pyReprObj : List (String × Json) → List String
  | [] => []
  | (k, v) :: kvs => (pyRepr (.str k) ++ ": " ++ pyRepr v) :: pyReprObj kvs

end

/-- Python `str()` on a JSON value: identity on strings, `repr` otherwise. -/
def pyStr : Json → String
  | .str s => s
  | v => pyRepr v

/-- Python truthiness of a JSON value. -/
def truthy : Json → Bool
  | .null => false
  | .bool b => b
  | .num n => n != 0
  | .str s => s != ""
  | .arr xs => !xs.isEmpty
  | .obj kvs => !kvs.isEmpty

/-- `dict.get`: first binding of the key, `none` when absent. -/
def pyGet (kvs : List (String × Json)) (k : String) : Option Json :=
  (kvs.find? (fun p => p.1 == k)).map (·.2)

/-- Python truthiness of an optional string (`None` and `""` are falsy). -/
def optTruthy : Option String → Bool
  | none => false
  | some s => s != ""

/-! ## Log Normalizer: `_payload_to_str` (app.py lines 78-110) -/

/-- A dict-shaped raw log entry; `some` means the key is present in the
dict (the order of key checks in `_payload_to_str` is `textPayload`,
`jsonPayload`, `protoPayload`, `payload`). -/
structure DictEntry where
  textPayload : Option Json
  jsonPayload : Option Json
  protoPayload : Option Json
  payload : Option Json

/-- A raw log entry: dict-shaped, or object-shaped
(`google.cloud.logging_v2.entries.LogEntry`, carrying a `payload`
attribute; `some .null` models a `payload` attribute equal to `None`,
`none` models a missing attribute — both take the `payload is not None`
else-branch to `""`). -/
inductive Entry where
  | dict (e : DictEntry)
  | obj (payload : Option Json)

/-- The value `_payload_to_str` produces: normally a string, but the
object-shaped branch `(payload.get("message") or ...)[:2000]` yields the
sliced value itself, which is a list when the `message`/`msg` field holds
a (truthy) list. -/
inductive PyVal where
  | vstr (s : String)
  | vlist (xs : List Json)

/-- Result of running `_payload_to_str`: a value, or a raised
`TypeError` (slicing a non-sliceable `message` value such as a number
or a dict). -/
inductive PyRes where
  | ok (v : PyVal)
  | typeError

/-- Size of a `_payload_to_str` result: character count of a string,
element count of a list. -/
def pyValLen : PyVal → Nat
  | .vstr s => s.length
  | .vlist xs => xs.length

/-- Python `x[:2000]` on an arbitrary value: strings and lists slice,
everything else raises `TypeError`. -/
def pySlice2000 : Json → PyRes
  | .str s => .ok (.vstr (pyTake s 2000))
  | .arr xs => .ok (.vlist (xs.take 2000))
  | _ => .typeError

/-- The chain `a or b or c`: first truthy value, else the last. -/
def firstTruthy (vs : List (Option Json)) (dflt : Json) : Json :=
  match vs with
  | [] => dflt
  | none :: rest => firstTruthy rest dflt
  | some v :: rest => if truthy v then v else firstTruthy rest dflt

/-- `_payload_to_str` (app.py 78-110).  `json.dumps` never raises on our
JSON values, so the `except` fallbacks to `str(...)` are dead in the
model. -/
def payloadToStr : Entry → PyRes
  | .dict e =>
    match e.textPayload with
    | some t => .ok (.vstr (pyTake (pyStr t) 2000))
    | none =>
      match e.jsonPayload with
      | some j => .ok (.vstr (pyTake (dumps j) 2000))
      | none =>
        match e.protoPayload with
        | some j => .ok (.vstr (pyTake (dumps j) 2000))
        | none =>
          match e.payload with
          | some (.str s) => .ok (.vstr (pyTake s 2000))
          | some p => .ok (.vstr (pyTake (dumps p) 2000))
          | none => .ok (.vstr "")
  | .obj none => .ok (.vstr "")
  | .obj (some (.str s)) => .ok (.vstr (pyTake s 2000))
  | .obj (some (.obj kvs)) =>
    pySlice2000
      (firstTruthy [pyGet kvs "message", pyGet kvs "msg"]
        (.str (dumps (.obj kvs))))
  | .obj (some .null) => .ok (.vstr "")
  | .obj (some p) => .ok (.vstr (pyTake (pyStr p) 2000))

/-! ## Query Builder (app.py lines 227-289) -/

/-- `svc_clause_for` (app.py 227-231). -/
def svcClauseFor (names : List String) : Option String :=
  let ns := (names.map String.trim).filter (· != "")
  if ns.isEmpty then none
  else some (String.intercalate " OR "
    (ns.map (fun s => "resource.labels.service_name=\"" ++ s ++ "\"")))

/-- `filter_requests_weird` (app.py 233-255).  `region` is the Python
argument with `""`/`None` both falsy, modelled as `""`. -/
def filterRequestsWeird (region : String) (services : List String) : String :=
  let f := ["resource.type=\"cloud_run_revision\"",
            "logName:\"run.googleapis.com%2Frequests\"",
            "NOT httpRequest.userAgent:\"GoogleHC\"",
            "NOT httpRequest.requestUrl:\"/health\""]
  let f := if region != "" then
      f ++ ["resource.labels.location=\"" ++ region ++ "\""] else f
  let f := match svcClauseFor services with
    | some c => f ++ ["(" ++ c ++ ")"]
    | none => f
  let f := f ++ ["(" ++
    "httpRequest.status < 200 OR " ++
    "(httpRequest.status > 206 AND httpRequest.status < 300) OR " ++
    "(httpRequest.status >= 300 AND httpRequest.status != 301 AND " ++
    " httpRequest.status != 302 AND httpRequest.status != 303 AND " ++
    " httpRequest.status != 304 AND httpRequest.status != 307 AND httpRequest.status != 308) OR " ++
    "httpRequest.status >= 400" ++
    ") AND httpRequest.status != 404"]
  String.intercalate "\n" f

/-- Evaluation, on a concrete status code, of the status clause that
`filter_requests_weird` appends (app.py 245-253), under Cloud Logging
filter semantics (`AND`/`OR`/comparisons on `httpRequest.status`). -/
def weirdStatus (status : Int) : Bool :=
  (decide (status < 200) ||
   (decide (status > 206) && decide (status < 300)) ||
   (decide (status ≥ 300) && decide (status ≠ 301) && decide (status ≠ 302) &&
    decide (status ≠ 303) && decide (status ≠ 304) && decide (status ≠ 307) &&
    decide (status ≠ 308)) ||
   decide (status ≥ 400)) && decide (status ≠ 404)

/-- `filter_container_errors` (app.py 258-270): built from the region
and service hints only. -/
def filterContainerErrors (region : String) (services : List String) : String :=
  let f := ["resource.type=\"cloud_run_revision\""]
  let f := if region != "" then
      f ++ ["resource.labels.location=\"" ++ region ++ "\""] else f
  let f := match svcClauseFor services with
    | some c => f ++ ["(" ++ c ++ ")"]
    | none => f
  let f := f ++ ["NOT logName:\"run.googleapis.com%2Frequests\"",
    "(logName:\"run.googleapis.com%2Fstderr\" OR logName:\"run.googleapis.com%2Fstdout\")",
    "(severity>=ERROR OR textPayload:(\"Traceback\" OR \"Exception\" OR \"CRITICAL\" OR \"panic:\") " ++
    "OR jsonPayload.message:(\"error\" OR \"exception\") OR jsonPayload.error:*)"]
  String.intercalate "\n" f

/-- `filter_stderr_tail` (app.py 273-289). -/
def filterStderrTail (regions : List String) (services : List String)
    (streams : List String) : String :=
  let f := ["resource.type=\"cloud_run_revision\""]
  let f := if !regions.isEmpty then
      let reg := "(" ++ String.intercalate " OR "
        ((regions.filter (· != "")).map
          (fun r => "resource.labels.location=\"" ++ r ++ "\"")) ++ ")"
      if reg != "()" then f ++ [reg] else f
    else f
  let f := if !services.isEmpty then
      match svcClauseFor services with
      | some sc => f ++ ["(" ++ sc ++ ")"]
      | none => f
    else f
  let parts := (if streams.contains "stderr" then
      ["logName:\"run.googleapis.com%2Fstderr\""] else []) ++
    (if streams.contains "stdout" then
      ["logName:\"run.googleapis.com%2Fstdout\""] else [])
  let f := if !parts.isEmpty then
      f ++ ["(" ++ String.intercalate " OR " parts ++ ")"] else f
  let f := f ++ [
    "(severity>=ERROR OR textPayload:(\"Traceback\" OR \"Exception\" OR \"CRITICAL\" OR \"panic:\") " ++
    "OR jsonPayload.message:(\"error\" OR \"exception\") OR jsonPayload.error:*)"]
  String.intercalate "\n" f

/-! ## Canonical log records and the Report Renderer (app.py 158-183) -/

/-- The canonical record dict built in `fetch_logs` (app.py 158-167).
`none` models a `None` value; each key is always present.  (`text` is
kept as a string here: the renderer and the alert flow are exercised on
string-texted records; the non-string corner of `_payload_to_str` is
treated separately through `PyVal`.) -/
structure CanonRec where
  ts : String
  sev : Option String
  svc : Option String
  trace : Option String
  status : Option Int
  method : Option String
  url : Option String
  text : String
deriving DecidableEq

/-- `f-string` rendering of a possibly-`None` string (Python formats
`None` as `"None"`). -/
def fmtPyOpt : Option String → String
  | none => "None"
  | some s => s

/-- `x or "-"` for an optional string field. -/
def orDashS : Option String → String
  | none => "-"
  | some s => if s = "" then "-" else s

/-- `x or "-"` for an optional numeric field (`0` is falsy). -/
def orDashI : Option Int → String
  | none => "-"
  | some n => if n = 0 then "-" else toString n

/-- `f"{i+1:02d}"`. -/
def pad2 (n : Nat) : String :=
  if n < 10 then "0" ++ toString n else toString n

/-- One rendered block of `format_lines` (app.py 175-178): the numbered
header line followed by the record text. -/
def renderLine (i : Nat) (e : CanonRec) : String :=
  pad2 (i + 1) ++ " " ++ e.ts ++ " " ++ fmtPyOpt e.sev ++ " " ++
  "svc=" ++ orDashS e.svc ++ " status=" ++ orDashI e.status ++ " " ++
  "method=" ++ orDashS e.method ++ " url=" ++ orDashS e.url ++ "\n" ++
  e.text

/-- Python `xs[-m:]` (note `xs[-0:]` is the whole list). -/
def pyTakeLast (xs : List CanonRec) (m : Nat) : List CanonRec :=
  if m = 0 then xs else xs.drop (xs.length - m)

/-- The entry-selection step of `format_lines` (app.py 173). -/
def selectEntries (lines : List CanonRec) (maxLines : Nat)
    (chronological : Bool) : List CanonRec :=
  if chronological then pyTakeLast lines.reverse maxLines
  else lines.take maxLines

/-- The `"\n\n"`-joined blob of `format_lines` (app.py 174-180), before
any truncation. -/
def renderBlob (lines : List CanonRec) (maxLines : Nat)
    (chronological : Bool) : String :=
  String.intercalate "\n\n"
    ((selectEntries lines maxLines chronological).enum.map
      (fun p => renderLine p.1 p.2))

/-- The truncation marker appended by `format_lines` (app.py 182). -/
def truncMarker : String := "\n…(truncated)…"

/-- `format_lines` (app.py 171-183). -/
def formatLines (lines : List CanonRec) (maxLines : Nat) (maxChars : Nat)
    (chronological : Bool) : String :=
  let blob := renderBlob lines maxLines chronological
  let blob := if blob.length > maxChars then pyTake blob maxChars ++ truncMarker
    else blob
  if blob ≠ "" then "```\n" ++ blob ++ "\n```" else "_No logs in window._"

/-! ## Fetch Orchestrator: `_summarize_log_exception`, `try_fetch_logs`
(app.py 292-326) -/

/-- The features of a caught exception that `_summarize_log_exception`
reads: its optional `.message` attribute, `str(exc)`, its class name,
and which special-cased class it belongs to. -/
structure LogExc where
  message : Option String
  strForm : String
  clsName : String
  isPermissionDenied : Bool
  isDefaultCredsError : Bool

/-- Fields of Python `s.split()`: maximal runs of non-whitespace
characters (empty fields never occur). -/
def wsSplitAux : List Char → List Char → List (List Char)
  | [], acc => if acc.isEmpty then [] else [acc.reverse]
  | c :: rest, acc =>
    if c.isWhitespace then
      if acc.isEmpty then wsSplitAux rest []
      else acc.reverse :: wsSplitAux rest []
    else wsSplitAux rest (c :: acc)

/-- Python `" ".join(s.split())`: collapse whitespace runs. -/
def collapseWs (s : String) : String :=
  String.intercalate " " ((wsSplitAux s.data []).map String.mk)

/-- `_summarize_log_exception` (app.py 292-301), at its default
`max_len = 500` (the only call sites use the default). -/
def summarizeLogException (e : LogExc) : String :=
  let base := match e.message with
    | some m => if m ≠ "" then m
        else if e.strForm ≠ "" then e.strForm else e.clsName
    | none => if e.strForm ≠ "" then e.strForm else e.clsName
  let msg := collapseWs base
  let msg := if e.isPermissionDenied then
      msg ++ " (check that the Cloud Run runtime service account has Logging Viewer access)"
    else if e.isDefaultCredsError then
      msg ++ " (application default credentials were not found)"
    else msg
  if msg.length > 500 then pyTake msg 499 ++ "…" else msg

/-- One execution of the underlying `fetch_logs` call: it either
returns records or raises an exception.  Every exception that can
escape `fetch_logs` is an `Exception` subclass, and `try_fetch_logs`
catches the listed classes first and `Exception` as a last resort, so a
single error branch models all failure modes. -/
def tryFetchLogs (result : Except LogExc (List CanonRec)) :
    List CanonRec × Option String :=
  match result with
  | .ok recs => (recs, none)
  | .error e => ([], some (summarizeLogException e))

/-! ## Correlator: windows, trace extraction, container-error query
(app.py 365-402, 380-385) -/

/-- `started_at = int(inc.get("started_at") or time.time())`
(app.py 365): a missing or zero `started_at` falls back to the current
time. -/
def resolveStartedAt (incStartedAt : Option Int) (now : Int) : Int :=
  match incStartedAt with
  | some v => if v ≠ 0 then v else now
  | none => now

/-- The primary window `(t0, t1)` of the alert handler (app.py 366-367),
in epoch seconds: `t1 = started_at`, `t0 = t1 − WINDOW_MIN minutes`. -/
def alertWindow (startedAt : Int) (windowMin : Int) : Int × Int :=
  (startedAt - windowMin * 60, startedAt)

/-- `next((e.get("trace") for e in req_logs if e.get("trace")), None)`
(app.py 380): the first record carrying a truthy trace token. -/
def firstTrace (reqLogs : List CanonRec) : Option String :=
  (reqLogs.find? (fun e => optTruthy e.trace)).bind (·.trace)

/-- `a or b` on the region hint (app.py 376, 382). -/
def pyOrStr (a : Option String) (b : String) : String :=
  match a with
  | some s => if s ≠ "" then s else b
  | none => b

/-- The services argument `[svc_hint] if svc_hint else SERVICES`
(app.py 377, 383). -/
def svcArg (svcHint : Option String) (envServices : List String) : List String :=
  match svcHint with
  | some s => if s ≠ "" then [s] else envServices
  | none => envServices

/-- The filter string handed to the container-error query by the alert
handler (app.py 380-385): the trace token is extracted from the
request-anomaly results just before, but `filter_container_errors` is
built from the region and service hints only. -/
def errQueryFilter (regionHint : Option String) (envRegion : String)
    (svcHint : Option String) (envServices : List String)
    (reqLogs : List CanonRec) : String :=
  let _trace := firstTrace reqLogs
  filterContainerErrors (pyOrStr regionHint envRegion) (svcArg svcHint envServices)

/-! ## Pre-trigger tail fallback stages (app.py 401-423) -/

/-- The parameters of one pre-trigger tail query: which streams the
`filter_stderr_tail` filter includes, the window in epoch seconds, and
the page size. -/
structure TailQuery where
  streams : List String
  startT : Int
  endT : Int
  pageSize : Nat

/-- Stage 1 (app.py 405-408): stderr only, `[started_at − PRE_MIN,
started_at]`, page size 100. -/
def tailQuery1 (startedAt preMin : Int) : TailQuery :=
  ⟨["stderr"], startedAt - preMin * 60, startedAt, 100⟩

/-- Stage 2 (app.py 411-415): stderr+stdout, same window, page size 150. -/
def tailQuery2 (startedAt preMin : Int) : TailQuery :=
  ⟨["stderr", "stdout"], startedAt - preMin * 60, startedAt, 150⟩

/-- Stage 3 (app.py 418-423): stderr+stdout, window widened by a fixed
2 extra minutes, page size 200. -/
def tailQuery3 (startedAt preMin : Int) : TailQuery :=
  ⟨["stderr", "stdout"], startedAt - (preMin + 2) * 60, startedAt, 200⟩

/-- Python falsiness of the error component (`not stderr_err`): `None`
and `""` are falsy. -/
def errFalsy : Option String → Bool
  | none => true
  | some s => s == ""

/-- The escalating pre-trigger tail logic (app.py 404-423), with the
log store abstracted as an oracle from query parameters to a
`(records, error)` pair. -/
def runPreTail (fetch : TailQuery → List CanonRec × Option String)
    (startedAt preMin : Int) : List CanonRec × Option String :=
  let r1 := fetch (tailQuery1 startedAt preMin)
  if r1.1.isEmpty && errFalsy r1.2 then
    let r2 := fetch (tailQuery2 startedAt preMin)
    if r2.1.isEmpty && errFalsy r2.2 then
      fetch (tailQuery3 startedAt preMin)
    else r2
  else r1

/-! ## Basic auth (app.py 203-225, 357-360) -/

/-- What `check_basic_auth` returns: the literal `True`, or the
`Response(status=401)` built by `_challenge`. -/
inductive AuthCheck where
  | allowed
  | challenge
deriving DecidableEq

/-- Python truthiness of a `check_basic_auth` result.  `True` is truthy,
and a werkzeug/Flask `Response` object defines neither `__bool__` nor
`__len__`, so it is truthy as well. -/
def authCheckTruthy : AuthCheck → Bool
  | .allowed => true
  | .challenge => true

/-- `check_basic_auth` (app.py 208-225).  `bu`/`bp` are `BASIC_USER` /
`BASIC_PASS`; `hdr` is `req.headers.get("Authorization", ...)` (`none`
when the header is absent); `decode` models
`base64.b64decode(auth.split()[1]).decode("utf-8").split(":", 1)` —
`none` when any step of that `try` block raises.
`hmac.compare_digest` on equal-type strings is string equality (its
constant-time behaviour has no functional content). -/
def checkBasicAuth (bu bp : Option String) (hdr : Option String)
    (decode : String → Option (String × String)) : AuthCheck :=
  if !(optTruthy bu) || !(optTruthy bp) then .allowed
  else
    let auth := hdr.getD ""
    if !(auth.startsWith "Basic ") then .challenge
    else
      match decode auth with
      | none => .challenge
      | some (u, p) =>
        if u == bu.getD "" && p == bp.getD "" then .allowed else .challenge

/-- The guard `if not check_basic_auth(request): return ("", 401)`
(app.py 359-360): `true` means the handler returns the 401 early. -/
def alertRejects401 (bu bp : Option String) (hdr : Option String)
    (decode : String → Option (String × String)) : Bool :=
  !(authCheckTruthy (checkBasicAuth bu bp hdr decode))

/-- A `decode` oracle for a request with no parseable credentials. -/
def decodeFail : String → Option (String × String) := fun _ => none

/-! ## Repository choice and ticketing stage (app.py 329-334, 438-455,
480-486) -/

/-- `choose_repo` (app.py 329-334): first service with an explicit
mapping, else the default. -/
def chooseRepo (repoMap : List (String × String)) (defaultRepo : String)
    (servicesSeen : List String) : String :=
  match servicesSeen with
  | [] => defaultRepo
  | s :: rest =>
    match repoMap.lookup s with
    | some r => r
    | none => chooseRepo repoMap defaultRepo rest

/-- Python `str.lower()` (ASCII case mapping, which covers repository
slugs). -/
def pyLower (s : String) : String := String.mk (s.data.map Char.toLower)

/-- The guard `not repo_slug or "/" not in repo_slug or
repo_slug.lower() in {"owner/repo", "org/repo"}` (app.py 439).
`"/" in slug` is membership of the code point `'/'`. -/
def badRepoSlug (slug : String) : Bool :=
  slug == "" || !(slug.data.contains '/') ||
  pyLower slug == "owner/repo" || pyLower slug == "org/repo"

/-- `repo_slug.split("/", 1)` (app.py 444): split at the first slash. -/
def splitSlug (slug : String) : String × String :=
  match slug.splitOn "/" with
  | [] => (slug, "")
  | [a] => (a, "")
  | a :: rest => (a, String.intercalate "/" rest)

/-- The notes the tail of the alert handler can answer with. -/
inductive AlertNote where
  | badRepoSlugNote
  | githubLatestPrError
  | noPrsFound
  | githubCommentError
  | commented
deriving DecidableEq

/-- Observable outcome of the ticketing stage: which response was
produced, its HTTP status, and which outbound GitHub calls were made. -/
structure TicketOutcome where
  note : AlertNote
  httpStatus : Nat
  prLookupCalled : Bool
  commentPostCalled : Bool
deriving DecidableEq

/-- The tail of the alert handler from the repo choice on (app.py
438-455 and 480-486), with the two GitHub operations as oracles:
`latestPr` models `latest_pr_number` (`.error s` a raised `HTTPError`
with status `s`, `.ok` its JSON result) and `postComment` models
`post_pr_comment`.  `if not pr:` treats both `None` and a PR number `0`
as falsy. -/
def ticketingStage (repoMap : List (String × String)) (defaultRepo : String)
    (servicesSeen : List String)
    (latestPr : String → String → Except Nat (Option Nat))
    (postComment : String → String → Nat → Except Nat String) : TicketOutcome :=
  let slug := chooseRepo repoMap defaultRepo servicesSeen
  if badRepoSlug slug then ⟨.badRepoSlugNote, 200, false, false⟩
  else
    let (owner, repo) := splitSlug slug
    match latestPr owner repo with
    | .error _ => ⟨.githubLatestPrError, 200, true, false⟩
    | .ok none => ⟨.noPrsFound, 200, true, false⟩
    | .ok (some pr) =>
      if pr = 0 then ⟨.noPrsFound, 200, true, false⟩
      else
        match postComment owner repo pr with
        | .error _ => ⟨.githubCommentError, 200, true, true⟩
        | .ok _ => ⟨.commented, 200, true, true⟩

/-! ## Concrete fixtures used by witnesses and counterexamples -/

/-- A canonical record with a ten-character text and no other data. -/
def cRec : CanonRec := ⟨"", none, none, none, none, none, none, "aaaaaaaaaa"⟩

/-- A canonical record carrying a trace token. -/
def tRec : CanonRec :=
  ⟨"", none, none, some "projects/p/traces/abc", none, none, none, ""⟩

/-- A log-store oracle whose stderr-only and same-window stderr+stdout
stages are empty and whose widened stage returns one record. -/
def tailFetch0 : TailQuery → List CanonRec × Option String :=
  fun q =>
    if q.streams.length = 1 then ([], none)
    else if q.pageSize = 150 then ([], none)
    else ([cRec], none)

/-- A concrete caught exception. -/
def exc0 : LogExc := ⟨some "boom", "boom", "ValueError", false, false⟩

/-- `ValueError(" ")` as caught by `try_fetch_logs`: no `.message`
attribute, `str(exc) = " "` (truthy), class name `ValueError` — its
summary whitespace-collapses to the empty string. -/
def excWs : LogExc := ⟨none, " ", "ValueError", false, false⟩

/-- A log-store oracle whose stderr-only stage fails with an
empty-string error summary (as produced for `ValueError(" ")`) and
whose stderr+stdout stage returns one record. -/
def tailFetchErr : TailQuery → List CanonRec × Option String :=
  fun q =>
    if q.streams.length = 1 then ([], some "")
    else ([cRec], none)

/-- GitHub oracles for witnesses: a repository whose latest PR is #7,
and a comment post that succeeds. -/
def latestPr0 : String → String → Except Nat (Option Nat) :=
  fun _ _ => .ok (some 7)

def postComment0 : String → String → Nat → Except Nat String :=
  fun _ _ _ => .ok "https://example.invalid/c/1"

/-! ## Helper lemmas -/

theorem pyTake_length (s : String) (n : Nat) :
    (pyTake s n).length = min n s.length := by
  rw [pyTake, String.length_mk, List.length_take, String.length]

theorem ne_empty_of_length_pos (s : String) (h : 0 < s.length) : s ≠ "" := by
  intro he
  subst he
  simp at h

theorem chooseRepo_of_no_match (repoMap : List (String × String))
    (defaultRepo : String) (servicesSeen : List String)
    (h : ∀ s ∈ servicesSeen, repoMap.lookup s = none) :
    chooseRepo repoMap defaultRepo servicesSeen = defaultRepo := by
  induction servicesSeen with
  | nil => rfl
  | cons s rest ih =>
    have hs := h s (List.mem_cons_self s rest)
    simp only [chooseRepo, hs]
    exact ih (fun x hx => h x (List.mem_cons_of_mem s hx))

theorem truncate500_length (msg : String) :
    (if msg.length > 500 then pyTake msg 499 ++ "…" else msg).length ≤ 500 := by
  split
  · rw [String.length_append, pyTake_length]
    have h1 : ("…" : String).length = 1 := rfl
    omega
  · omega

theorem summarizeLogException_length (e : LogExc) :
    (summarizeLogException e).length ≤ 500 := by
  unfold summarizeLogException
  dsimp only
  exact truncate500_length _

theorem pySlice2000_bounded (j : Json) (v : PyVal)
    (h : pySlice2000 j = .ok v) : pyValLen v ≤ 2000 := by
  cases j with
  | str s =>
    simp only [pySlice2000, PyRes.ok.injEq] at h
    subst h
    simp [pyValLen, pyTake_length]
  | arr xs =>
    simp only [pySlice2000, PyRes.ok.injEq] at h
    subst h
    simp [pyValLen]
  | null => simp [pySlice2000] at h
  | bool b => simp [pySlice2000] at h
  | num n => simp [pySlice2000] at h
  | obj kvs => simp [pySlice2000] at h

/-! ## Claims -/

/-- C1 (counterexample): `filter_requests_weird`'s status predicate is
false at 203 and 205, although the claim places them outside the
non-anomalous set and asserts they evaluate true. -/
theorem weird_status_counterexample :
    weirdStatus 203 = false ∧ weirdStatus 205 = false := by decide

/-- C1 (amended): the status predicate assembled by
`filter_requests_weird` is false exactly on 200-206 (the whole 2xx range
up to 206, including 203 and 205), the redirect set
{301,302,303,304,307,308}, and 404; it is true everywhere else. -/
theorem weird_status_spec : ∀ status : Int,
    weirdStatus status = false ↔
      ((200 ≤ status ∧ status ≤ 206) ∨ status = 301 ∨ status = 302 ∨
       status = 303 ∨ status = 304 ∨ status = 307 ∨ status = 308 ∨
       status = 404) := by
  intro s
  simp only [weirdStatus, Bool.and_eq_false_iff, Bool.or_eq_false_iff,
    Bool.and_eq_false_iff, decide_eq_false_iff_not, not_lt, not_le, ne_eq,
    Decidable.not_not]
  omega

/-- C2 (counterexample): for `started_at = 1700000000` and
`WINDOW_MIN = 5` the handler's window is `[1699999700, 1700000000]`,
not the claimed symmetric `[1699999700, 1700000300]`. -/
theorem alert_window_counterexample :
    alertWindow 1700000000 5 = (1699999700, 1700000000) ∧
    (alertWindow 1700000000 5).2 ≠ 1700000300 := by
  exact ⟨rfl, by decide⟩

/-- C2 (amended): the primary window is the look-back interval
`[started_at − WINDOW_MIN minutes, started_at]`: the start is
`started_at − 60·WINDOW_MIN`, the end is `started_at` itself, and the
window spans `WINDOW_MIN` minutes total (not `2·WINDOW_MIN`). -/
theorem alert_window_spec : ∀ startedAt windowMin : Int,
    alertWindow startedAt windowMin = (startedAt - windowMin * 60, startedAt) ∧
    (alertWindow startedAt windowMin).2 - (alertWindow startedAt windowMin).1
      = windowMin * 60 := by
  intro s w
  refine ⟨rfl, ?_⟩
  simp [alertWindow]

/-- C3 (counterexample): a dict-shaped entry whose only payload is the
structured payload `{"message": "x"}` normalizes to the serialized JSON
text `{"message": "x"}`, not to `"x"`. -/
theorem payload_to_str_counterexample :
    payloadToStr (.dict ⟨none, some (.obj [("message", Json.str "x")]), none, none⟩)
      = .ok (.vstr "\x7b\"message\": \"x\"\x7d") ∧
    ("\x7b\"message\": \"x\"\x7d" : String) ≠ "x" := by
  exact ⟨rfl, by decide⟩

/-- C3 (amended): `message`/`msg` extraction applies only to
object-shaped entries: an object-shaped entry whose payload is
`{"message": "x"}` normalizes to `"x"`, while a dict-shaped entry's
`jsonPayload` is serialized whole; a proto payload is serialized; and an
entry with no payload at all yields `""` (for both shapes) without
raising. -/
theorem payload_to_str_spec :
    payloadToStr (.obj (some (.obj [("message", Json.str "x")]))) = .ok (.vstr "x") ∧
    (∀ j : Json, payloadToStr (.dict ⟨none, some j, none, none⟩)
        = .ok (.vstr (pyTake (dumps j) 2000))) ∧
    (∀ j : Json, payloadToStr (.dict ⟨none, none, some j, none⟩)
        = .ok (.vstr (pyTake (dumps j) 2000))) ∧
    payloadToStr (.dict ⟨none, none, none, none⟩) = .ok (.vstr "") ∧
    payloadToStr (.obj none) = .ok (.vstr "") := by
  exact ⟨rfl, fun j => rfl, fun j => rfl, rfl, rfl⟩

/-- C4 (counterexample): when an object-shaped structured payload's
`message` field is a (truthy) list, `_payload_to_str` returns that list
sliced — so the canonical `text` value is not a string. -/
theorem payload_to_str_text_counterexample :
    payloadToStr (.obj (some (.obj [("message", Json.arr [Json.num 1])])))
      = .ok (.vlist [Json.num 1]) ∧
    ∀ s : String, PyRes.ok (PyVal.vlist [Json.num 1]) ≠ PyRes.ok (PyVal.vstr s) := by
  refine ⟨rfl, ?_⟩
  intro s h
  simp at h

/-- C4 (amended): whenever `_payload_to_str` returns a value (rather
than raising), that value is truncated to size at most 2000: a string of
at most 2000 characters, or — in the object-shaped `message`/`msg` list
corner — a list of at most 2000 elements. -/
theorem payload_to_str_bounded : ∀ (e : Entry) (v : PyVal),
    payloadToStr e = .ok v → pyValLen v ≤ 2000 := by
  have hstr : ∀ (s : String) (v : PyVal),
      PyRes.ok (PyVal.vstr (pyTake s 2000)) = .ok v → pyValLen v ≤ 2000 := by
    intro s v h
    injection h with h
    subst h
    simp [pyValLen, pyTake_length]
  have hemp : ∀ v : PyVal, PyRes.ok (PyVal.vstr "") = .ok v → pyValLen v ≤ 2000 := by
    intro v h
    injection h with h
    subst h
    simp [pyValLen]
  intro e v h
  cases e with
  | dict d =>
    obtain ⟨tp, jp, pp, pl⟩ := d
    cases tp with
    | some t => exact hstr _ _ h
    | none =>
      cases jp with
      | some j => exact hstr _ _ h
      | none =>
        cases pp with
        | some j => exact hstr _ _ h
        | none =>
          cases pl with
          | none => exact hemp _ h
          | some p =>
            cases p with
            | str s => exact hstr _ _ h
            | null => exact hstr _ _ h
            | bool b => exact hstr _ _ h
            | num n => exact hstr _ _ h
            | arr xs => exact hstr _ _ h
            | obj kvs => exact hstr _ _ h
  | obj p =>
    cases p with
    | none => exact hemp _ h
    | some j =>
      cases j with
      | str s => exact hstr _ _ h
      | null => exact hemp _ h
      | bool b => exact hstr _ _ h
      | num n => exact hstr _ _ h
      | arr xs => exact hstr _ _ h
      | obj kvs => exact pySlice2000_bounded _ _ h

/-- C4 (witness): the bound applied to the empty object-shaped entry. -/
theorem payload_to_str_bounded_witness :
    pyValLen (PyVal.vstr "") ≤ 2000 :=
  payload_to_str_bounded (.obj none) (.vstr "") rfl

/-- C5 (counterexample): one record whose rendered blob exceeds
`max_chars = 5`: the value returned by `format_lines` has length 27
(= 5 + 14 + 8 for the code fences), not 5 plus the marker length, and
it ends with the closing fence, not with the truncation marker. -/
theorem format_lines_counterexample :
    (formatLines [cRec] 30 5 false).length ≠ 5 + truncMarker.length ∧
    truncMarker.data.isSuffixOf (formatLines [cRec] 30 5 false).data = false := by
  decide

/-- C5 (amended): when the rendered blob exceeds `max_chars`, the inner
blob is truncated to exactly `max_chars` characters plus the truncation
marker and ends with that marker, and the value `format_lines` returns
additionally wraps it in ` ```\n … \n``` ` fences: its total length is
`max_chars` + the marker length + 8 and it ends with the closing
fence. -/
theorem format_lines_truncation (lines : List CanonRec)
    (maxLines maxChars : Nat) (chrono : Bool)
    (h : (renderBlob lines maxLines chrono).length > maxChars) :
    formatLines lines maxLines maxChars chrono
      = "```\n" ++ (pyTake (renderBlob lines maxLines chrono) maxChars ++ truncMarker)
          ++ "\n```" ∧
    (formatLines lines maxLines maxChars chrono).length
      = maxChars + truncMarker.length + 8 ∧
    truncMarker.data <:+
      (pyTake (renderBlob lines maxLines chrono) maxChars ++ truncMarker).data ∧
    ("\n```" : String).data <:+ (formatLines lines maxLines maxChars chrono).data := by
  have h14 : truncMarker.length = 14 := rfl
  have hne : (pyTake (renderBlob lines maxLines chrono) maxChars ++ truncMarker) ≠ "" := by
    apply ne_empty_of_length_pos
    rw [String.length_append]
    omega
  have heq : formatLines lines maxLines maxChars chrono
      = "```\n" ++ (pyTake (renderBlob lines maxLines chrono) maxChars ++ truncMarker)
          ++ "\n```" := by
    unfold formatLines
    dsimp only
    rw [if_pos h, if_pos hne]
  refine ⟨heq, ?_, ?_, ?_⟩
  · rw [heq, String.length_append, String.length_append, String.length_append,
      pyTake_length, h14]
    have h4 : ("```\n" : String).length = 4 := rfl
    have h4' : ("\n```" : String).length = 4 := rfl
    omega
  · rw [String.data_append]
    exact List.suffix_append _ _
  · rw [heq, String.data_append]
    exact List.suffix_append _ _

/-- C5 (witness): the truncation shape at a record list whose blob has
49 characters and `max_chars = 5`. -/
theorem format_lines_truncation_witness :
    (renderBlob [cRec] 30 false).length > 5 ∧
    formatLines [cRec] 30 5 false
      = "```\n" ++ (pyTake (renderBlob [cRec] 30 false) 5 ++ truncMarker) ++ "\n```" :=
  ⟨by decide, (format_lines_truncation [cRec] 30 5 false (by decide)).1⟩

/-- C6 (counterexample): an errored first stage is not necessarily
kept.  `_summarize_log_exception(ValueError(" "))` whitespace-collapses
to the empty string (first conjunct), so `try_fetch_logs` can return
`([], "")`; the guard `if not stderr_tail and not stderr_err` treats
that errored stage as empty-with-no-error and runs stage 2, whose
result — not stage 1's `([], some "")` — is kept. -/
theorem pre_tail_counterexample :
    summarizeLogException excWs = "" ∧
    tailFetchErr (tailQuery1 1700000000 3) = ([], some "") ∧
    runPreTail tailFetchErr 1700000000 3 = ([cRec], none) ∧
    (([cRec], none) : List CanonRec × Option String) ≠ ([], some "") := by
  refine ⟨rfl, rfl, rfl, by decide⟩

/-- C6 (amended): the pre-trigger tail is produced by at most three
fallback stages, strictly in order — stderr only over
`[started_at − PRE_MIN·60, started_at]` with page size 100, then
stderr+stdout over the same window with page size 150, then
stderr+stdout over a window widened by a fixed 2 extra minutes with
page size 200 — with no merging across stages; the kept
`(records, error)` pair is exactly the result of the first stage whose
record list is non-empty or whose error field is truthy (a non-`None`,
non-empty summary), and each later stage runs only if every earlier
stage returned an empty list and a Python-falsy error (`None`, or the
reachable empty-string summary). -/
theorem pre_tail_policy (fetch : TailQuery → List CanonRec × Option String)
    (startedAt preMin : Int) :
    tailQuery1 startedAt preMin
      = ⟨["stderr"], startedAt - preMin * 60, startedAt, 100⟩ ∧
    tailQuery2 startedAt preMin
      = ⟨["stderr", "stdout"], startedAt - preMin * 60, startedAt, 150⟩ ∧
    tailQuery3 startedAt preMin
      = ⟨["stderr", "stdout"], startedAt - (preMin + 2) * 60, startedAt, 200⟩ ∧
    ((fetch (tailQuery1 startedAt preMin)).1 ≠ [] ∨
     errFalsy (fetch (tailQuery1 startedAt preMin)).2 = false →
      runPreTail fetch startedAt preMin = fetch (tailQuery1 startedAt preMin)) ∧
    ((fetch (tailQuery1 startedAt preMin)).1 = [] →
     errFalsy (fetch (tailQuery1 startedAt preMin)).2 = true →
     ((fetch (tailQuery2 startedAt preMin)).1 ≠ [] ∨
      errFalsy (fetch (tailQuery2 startedAt preMin)).2 = false) →
      runPreTail fetch startedAt preMin = fetch (tailQuery2 startedAt preMin)) ∧
    ((fetch (tailQuery1 startedAt preMin)).1 = [] →
     errFalsy (fetch (tailQuery1 startedAt preMin)).2 = true →
     (fetch (tailQuery2 startedAt preMin)).1 = [] →
     errFalsy (fetch (tailQuery2 startedAt preMin)).2 = true →
      runPreTail fetch startedAt preMin = fetch (tailQuery3 startedAt preMin)) := by
  have cond_false : ∀ q : TailQuery,
      (fetch q).1 ≠ [] ∨ errFalsy (fetch q).2 = false →
      ((fetch q).1.isEmpty && errFalsy (fetch q).2) = false := by
    intro q hq
    rcases hq with hl | he
    · simp [List.isEmpty_eq_false_iff_exists_mem]
      intro hnil
      exact absurd hnil hl
    · simp [he]
  refine ⟨rfl, rfl, rfl, ?_, ?_, ?_⟩
  · intro h1
    unfold runPreTail
    dsimp only
    simp [cond_false _ h1]
  · intro h1l h1e h2
    unfold runPreTail
    dsimp only
    rw [h1l]
    simp only [cond_false _ h2]
    simp [h1e]
  · intro h1l h1e h2l h2e
    unfold runPreTail
    dsimp only
    rw [h1l, h2l]
    simp [h1e, h2e]

/-- C6 (witness): an oracle whose first two stages are empty with no
error and whose widened third stage has one record: the kept pair is
stage 3's. -/
theorem pre_tail_policy_witness :
    runPreTail tailFetch0 1700000000 3 = ([cRec], none) :=
  ((pre_tail_policy tailFetch0 1700000000 3).2.2.2.2.2 rfl rfl rfl rfl).trans rfl

/-- C7: `try_fetch_logs` is total: a successful underlying fetch yields
`(records, None)`, and every failure mode — the caught exception, of
whatever class — yields an empty record list paired with the
human-readable summary from `_summarize_log_exception`, which is at
most 500 characters. -/
theorem try_fetch_logs_total : ∀ (r : Except LogExc (List CanonRec)),
    (∀ recs, r = .ok recs → tryFetchLogs r = (recs, none)) ∧
    (∀ e, r = .error e →
      tryFetchLogs r = ([], some (summarizeLogException e)) ∧
      (summarizeLogException e).length ≤ 500) := by
  intro r
  constructor
  · intro recs hr
    subst hr
    rfl
  · intro e hr
    subst hr
    exact ⟨rfl, summarizeLogException_length e⟩

/-- C7 (witness): the error branch evaluated on a concrete caught
exception. -/
theorem try_fetch_logs_total_witness :
    tryFetchLogs (.error exc0) = ([], some (summarizeLogException exc0)) :=
  ((try_fetch_logs_total (.error exc0)).2 exc0 rfl).1

/-- C8: evaluation at the failing input.  With credentials configured
(`WEBHOOK_USER = "u"`, `WEBHOOK_PASS = "p"`) and no Authorization
header, `check_basic_auth` returns the 401 challenge `Response` — but a
`Response` object is truthy, so the handler's guard
`if not check_basic_auth(request)` never fires: the handler never
returns 401, for any configuration, header, or decode outcome,
contradicting the documented 401-on-auth-failure behaviour. -/
theorem alert_never_401 :
    checkBasicAuth (some "u") (some "p") none decodeFail = .challenge ∧
    alertRejects401 (some "u") (some "p") none decodeFail = false ∧
    (∀ (bu bp hdr : Option String) (decode : String → Option (String × String)),
      alertRejects401 bu bp hdr decode = false) := by
  refine ⟨rfl, rfl, ?_⟩
  intro bu bp hdr decode
  unfold alertRejects401
  cases checkBasicAuth bu bp hdr decode <;> rfl

/-- C9: when no observed or hinted service is present in the
service→repository mapping and the default repository is a placeholder
(case-insensitively `owner/repo` or `org/repo`, or slash-free), the
handler short-circuits with the `bad_repo_slug` note and HTTP 200,
making neither the latest-PR lookup nor the comment post. -/
theorem bad_repo_slug_short_circuit
    (repoMap : List (String × String)) (defaultRepo : String)
    (servicesSeen : List String)
    (latestPr : String → String → Except Nat (Option Nat))
    (postComment : String → String → Nat → Except Nat String)
    (h1 : ∀ s ∈ servicesSeen, repoMap.lookup s = none)
    (h2 : pyLower defaultRepo = "owner/repo" ∨ pyLower defaultRepo = "org/repo" ∨
          defaultRepo.data.contains '/' = false) :
    ticketingStage repoMap defaultRepo servicesSeen latestPr postComment
      = ⟨.badRepoSlugNote, 200, false, false⟩ := by
  have hc := chooseRepo_of_no_match repoMap defaultRepo servicesSeen h1
  have hb : badRepoSlug defaultRepo = true := by
    unfold badRepoSlug
    rcases h2 with hh | hh | hh
    · simp [hh]
    · simp [hh]
    · have hmem : '/' ∉ defaultRepo.data := by simpa using hh
      simp [hh, hmem]
  unfold ticketingStage
  dsimp only
  rw [hc]
  simp [hb]

/-- C9 (witness): the short-circuit at the literal placeholder default
`"owner/repo"`, a mapping not containing the one observed service, and
live GitHub oracles that are never consulted. -/
theorem bad_repo_slug_witness :
    ticketingStage [("svc-a", "octo/hello")] "owner/repo" ["svc-b"]
        latestPr0 postComment0
      = ⟨AlertNote.badRepoSlugNote, 200, false, false⟩ :=
  bad_repo_slug_short_circuit _ _ _ _ _
    (by intro s hs; simp only [List.mem_singleton] at hs; subst hs; rfl)
    (Or.inl (by decide))

/-- C10: the filter handed to the container-error query is a function of
the region and service hints only — `filter_container_errors` contains
no trace-equality clause — so two runs whose request-anomaly results
differ (one yielding a first trace token, the other yielding none)
produce the identical container-error filter. -/
theorem err_filter_trace_invariant
    (regionHint : Option String) (envRegion : String) (svcHint : Option String)
    (envServices : List String) (reqLogs1 reqLogs2 : List CanonRec)
    (_h1 : firstTrace reqLogs1 ≠ none) (_h2 : firstTrace reqLogs2 = none) :
    errQueryFilter regionHint envRegion svcHint envServices reqLogs1
      = errQueryFilter regionHint envRegion svcHint envServices reqLogs2 := rfl

/-- C10 (witness): a run whose request logs carry a trace token against
a run with no request logs at all. -/
theorem err_filter_trace_invariant_witness :
    firstTrace [tRec] ≠ none ∧
    errQueryFilter none "us-west1" none ["svc-a"] [tRec]
      = errQueryFilter none "us-west1" none ["svc-a"] [] :=
  ⟨by decide,
   err_filter_trace_invariant none "us-west1" none ["svc-a"] [tRec] [] (by decide) rfl⟩

end App
